import Mathlib

/-!
Shallow embedding of the three scripts of the repository:
  * a Telegram math bot (`start`, `data`, `calc` command handlers),
  * a plotting script (sin and 2*cos over `linspace 0 10 200`),
  * a file-tail helper (`show_last_20_lines`).
Machine floats are modelled by exact numbers: parsed literals as rationals,
computed values (square, square root, natural log, sin, cos) as reals.
-/

/-! ### The bot script: the `/calc` handler -/

/-- Value of a decimal digit character, `none` for a non-digit.
Models the per-character digit test done by Python's `float` builtin. -/
def toDigit (c : Char) : Option ℕ :=
  if '0' ≤ c ∧ c ≤ '9' then some (c.toNat - '0'.toNat) else none

/-- Split a character list into its longest prefix of decimal digits
(as digit values) and the remainder. -/
def takeDigits : List Char → List ℕ × List Char
  | [] => ([], [])
  | c :: cs =>
    match toDigit c with
    | some d => let p := takeDigits cs; (d :: p.1, p.2)
    | none => ([], c :: cs)

/-- Value of a digit string read in base 10. -/
def digitsVal (ds : List ℕ) : ℕ :=
  ds.foldl (fun a d => 10 * a + d) 0

/-- Syntactic part of the model of Python's `float` builtin on plain decimal
literals: an optional sign, an integer part and/or a fractional part (at least
one digit in the mantissa), and an optional `e`/`E` exponent.  Returns the
signed mantissa read as an integer, the number of fractional digits, and the
exponent; `none` when the string is rejected (Python raises `ValueError`
there).  Whitespace padding, `inf`/`nan` literals and underscore separators
are outside the model. -/
def pyFloatParse (s : String) : Option (ℤ × ℕ × ℤ) :=
  let cs := s.data
  let sgn : ℤ × List Char :=
    match cs with
    | '+' :: t => (1, t)
    | '-' :: t => (-1, t)
    | t => (1, t)
  let ip := takeDigits sgn.2
  let fp : List ℕ × List Char × Bool :=
    match ip.2 with
    | '.' :: t =>
      let f := takeDigits t
      (f.1, f.2, !(ip.1.isEmpty && f.1.isEmpty))
    | t => ([], t, !ip.1.isEmpty)
  let mant : ℤ := sgn.1 * (digitsVal (ip.1 ++ fp.1) : ℤ)
  match fp.2.1 with
  | [] => if fp.2.2 then some (mant, fp.1.length, 0) else none
  | e :: t =>
    if (e = 'e' || e = 'E') && fp.2.2 then
      let es : ℤ × List Char :=
        match t with
        | '+' :: u => (1, u)
        | '-' :: u => (-1, u)
        | u => (1, u)
      let ed := takeDigits es.2
      if ed.1.isEmpty || !ed.2.isEmpty then none
      else some (mant, fp.1.length, es.1 * (digitsVal ed.1 : ℤ))
    else none

/-- Model of Python's `float` builtin on plain decimal literals: the exact
rational value of the accepted literal, `none` where Python raises
`ValueError`. -/
def pyFloat (s : String) : Option ℚ :=
  (pyFloatParse s).map fun p => (p.1 : ℚ) / (10 : ℚ) ^ p.2.1 * (10 : ℚ) ^ p.2.2

/-- Outcome of the body of the `/calc` handler's `try` block on an argument
list: `some n` when `float(context.args[0])` succeeds with value `n` and the
subsequent `math.sqrt(n)` and `math.log(n)` calls do not raise, `none` when
some step raises (`IndexError` on a missing argument, `ValueError` from
`float`, a math domain error from `sqrt` on `n < 0` or from `log` on
`n ≤ 0`). -/
def calcOutcome (args : List String) : Option ℚ :=
  match args with
  | [] => none
  | a :: _ =>
    match pyFloat a with
    | none => none
    | some n => if 0 < n then some n else none

/-- Whether the body of the `/calc` handler raises an exception on this
argument list (and control reaches the bare `except` branch). -/
def calcRaises (args : List String) : Bool :=
  (calcOutcome args).isNone

/-- A reply sent by the `/calc` handler: either the fallback text sent by the
`except` branch, or the success message reporting the parsed number, its
square, its square root and its natural log. -/
inductive CalcReply where
  | usage (msg : String) : CalcReply
  | result (n sq rt lg : ℝ) : CalcReply

/-- The reply of the `/calc` handler on an argument list, assembled exactly as
in the source: the `try` block parses `args[0]`, computes square, square root
and natural log and replies with them; any exception lands in the bare
`except`, which replies with the one fallback string. -/
noncomputable def calcReply (args : List String) : CalcReply :=
  match calcOutcome args with
  | none => .usage "Send like: /calc 25"
  | some n => .result (n : ℝ) ((n : ℝ) ^ 2) (Real.sqrt (n : ℝ)) (Real.log (n : ℝ))

/-! ### The bot script: the `/start` and `/data` handlers -/

/-- The "numbers" column of the fixed dataset built by `get_df` on every
call: `pd.DataFrame({"numbers": [10, 20, 30, 40, 50]})`. -/
def get_df : List ℚ :=
  [10, 20, 30, 40, 50]

/-- The derived "square" column: `df["numbers"] ** 2`, element-wise. -/
def squareCol (ns : List ℚ) : List ℚ :=
  ns.map fun n => n ^ 2

/-- The derived "sqrt" column: `df["numbers"].apply(math.sqrt)`. -/
noncomputable def sqrtCol (ns : List ℚ) : List ℝ :=
  ns.map fun n : ℚ => Real.sqrt (n : ℝ)

/-- The derived "log" column: `df["numbers"].apply(math.log)`. -/
noncomputable def logCol (ns : List ℚ) : List ℝ :=
  ns.map fun n : ℚ => Real.log (n : ℝ)

/-- The table the `/data` handler sends: the fresh `get_df` dataset together
with its three derived columns. -/
structure DataTable where
  numbers : List ℚ
  square : List ℚ
  sqrt : List ℝ
  log : List ℝ

/-- The reply of the `/data` handler, rebuilt from `get_df` on every call. -/
noncomputable def dataReply : DataTable :=
  { numbers := get_df
    square := squareCol get_df
    sqrt := sqrtCol get_df
    log := logCol get_df }

/-- The fixed text the `/start` handler sends. -/
def startText : String :=
  "Math Bot ready.\nCommands:\n/data - show pandas table\n/calc <number> - calculate square, sqrt, log"

/-- The `/start` handler with an explicit program state threaded through.  The
source reads and writes no module-level mutable state, so the embedding
returns the state unchanged and a reply that does not depend on it. -/
def startHandler {α : Type} (s : α) : String × α :=
  (startText, s)

/-- The `/data` handler with an explicit program state threaded through. -/
noncomputable def dataHandler {α : Type} (s : α) : DataTable × α :=
  (dataReply, s)

/-- The `/calc` handler with an explicit program state threaded through. -/
noncomputable def calcHandler {α : Type} (args : List String) (s : α) : CalcReply × α :=
  (calcReply args, s)

/-! ### The file-tail script: `show_last_20_lines` -/

/-- Model of Python's `file.readlines()`: split a character sequence into
lines, each keeping its trailing newline; a final fragment with no newline is
its own line. -/
def readlines : List Char → List (List Char)
  | [] => []
  | c :: rest =>
    match readlines rest with
    | [] => [[c]]
    | l :: ls => if c = '\n' then [c] :: l :: ls else (c :: l) :: ls

/-- The line selection `lines[-20:]` of the source: the last 20 lines, or all
of them when there are at most 20. -/
def tailLines (ls : List (List Char)) : List (List Char) :=
  ls.drop (ls.length - 20)

/-- The one kind of error the script can hit that the claims mention:
`open` raising on a missing path.  The function installs no handler, so the
error propagates to the caller, modelled by `Except.error`. -/
inductive PyError where
  | fileNotFound : PyError
  deriving DecidableEq

/-- `show_last_20_lines(file_path)`: opens the file (raising uncaught if the
path is missing), reads all lines, and prints each of `lines[-20:]` with
`end=''`.  The embedding takes the file system as a map from paths to
contents and returns the list of lines printed, in print order. -/
def show_last_20_lines (fs : String → Option (List Char)) (file_path : String) :
    Except PyError (List (List Char)) :=
  match fs file_path with
  | none => .error .fileNotFound
  | some contents => .ok (tailLines (readlines contents))

/-! ### The plotting script -/

/-- `np.linspace(a, b, n)` at index `i`: `n` evenly spaced samples from `a`
to `b`, endpoints included. -/
def linspace (a b : ℚ) (n : ℕ) (i : ℕ) : ℚ :=
  a + (b - a) * i / ((n : ℚ) - 1)

/-- The sample grid `x = np.linspace(0, 10, 200)` of the plotting script. -/
def xSample (i : ℕ) : ℚ :=
  linspace 0 10 200 i

/-- The curve `y = np.sin(x)`, sample by sample. -/
noncomputable def ySample (i : ℕ) : ℝ :=
  Real.sin ((xSample i : ℚ) : ℝ)

/-- The curve `z = np.cos(x) * 2`, sample by sample. -/
noncomputable def zSample (i : ℕ) : ℝ :=
  Real.cos ((xSample i : ℚ) : ℝ) * 2

/-- `y.max()`: the maximum of the 200 sin samples. -/
noncomputable def yMax : ℝ :=
  (Finset.range 200).sup' (Finset.nonempty_range_iff.mpr (by norm_num)) ySample

/-- `y.min()`: the minimum of the 200 sin samples. -/
noncomputable def yMin : ℝ :=
  (Finset.range 200).inf' (Finset.nonempty_range_iff.mpr (by norm_num)) ySample

/-- `z.max()`: the maximum of the 200 samples of `2*cos(x)`.  The script
computes `z` but never prints its extrema. -/
noncomputable def zMax : ℝ :=
  (Finset.range 200).sup' (Finset.nonempty_range_iff.mpr (by norm_num)) zSample

/-- One `print` call of the plotting script: its fixed label and the numeric
value printed after it. -/
structure PrintRec where
  label : String
  value : ℝ

/-- The two `print` calls the plotting script makes, in order: the maximum
and then the minimum of the sin curve.  Nothing else is printed. -/
noncomputable def plotPrints : List PrintRec :=
  [⟨"Max of sin(x):", yMax⟩, ⟨"Min of sin(x):", yMin⟩]

/-! ### Theorems about the file-tail script -/

/-- Splitting into lines loses no characters: concatenating the lines of
`readlines` gives back the original contents. -/
theorem readlines_flatten (c : List Char) : (readlines c).flatten = c := by
  induction c with
  | nil => rfl
  | cons a rest ih =>
    cases h : readlines rest with
    | nil =>
      have hr : rest = [] := by rw [h] at ih; simpa using ih.symm
      subst hr
      simp [readlines]
    | cons l ls =>
      rw [h] at ih
      by_cases ha : a = '\n'
      · simpa [readlines, h, ha] using ih
      · simpa [readlines, h, ha] using ih

/-- C3: on a file of fewer than 20 lines, `show_last_20_lines` prints all of
its lines; on a file of more than 20 lines it prints exactly the final 20,
as a suffix of the line list, hence in their original order. -/
theorem show_last_20_lines_tail (fs : String → Option (List Char)) (p : String)
    (contents : List Char) (hfs : fs p = some contents) :
    ((readlines contents).length < 20 →
      show_last_20_lines fs p = .ok (readlines contents)) ∧
    (20 < (readlines contents).length →
      show_last_20_lines fs p = .ok (tailLines (readlines contents)) ∧
      (tailLines (readlines contents)).length = 20 ∧
      tailLines (readlines contents) <:+ readlines contents) := by
  refine ⟨fun hlt => ?_, fun hgt => ⟨?_, ?_, ?_⟩⟩
  · simp [show_last_20_lines, hfs, tailLines, Nat.sub_eq_zero_of_le (le_of_lt hlt)]
  · simp [show_last_20_lines, hfs]
  · simp only [tailLines, List.length_drop]
    omega
  · exact List.drop_suffix _ _

/-- Witness for C3 at a concrete two-line file. -/
theorem show_last_20_lines_tail_witness :
    (fun q : String => if q = "notes.txt" then some "a\nb\n".data else none) "notes.txt"
        = some "a\nb\n".data ∧
    (readlines "a\nb\n".data).length < 20 ∧
    show_last_20_lines
        (fun q : String => if q = "notes.txt" then some "a\nb\n".data else none) "notes.txt"
      = .ok (readlines "a\nb\n".data) :=
  ⟨by decide, by decide,
    (show_last_20_lines_tail
      (fun q : String => if q = "notes.txt" then some "a\nb\n".data else none)
      "notes.txt" "a\nb\n".data (by decide)).1 (by decide)⟩

/-- C6: on a missing path, `open` raises and `show_last_20_lines` installs no
handler, so the error propagates to the caller. -/
theorem show_last_20_lines_missing (fs : String → Option (List Char)) (p : String)
    (h : fs p = none) : show_last_20_lines fs p = .error .fileNotFound := by
  simp [show_last_20_lines, h]

/-- Witness for C6 on an empty file system. -/
theorem show_last_20_lines_missing_witness :
    (fun _ : String => (none : Option (List Char))) "gone.txt" = none ∧
    show_last_20_lines (fun _ : String => none) "gone.txt" = .error .fileNotFound :=
  ⟨rfl, show_last_20_lines_missing _ "gone.txt" rfl⟩

/-- C10: the lines printed by `show_last_20_lines`, concatenated (each line is
printed with `end=''`), are character-for-character the suffix of the file's
contents formed by its last at most 20 lines; on an empty file nothing is
printed. -/
theorem show_last_20_lines_verbatim (fs : String → Option (List Char)) (p : String)
    (contents : List Char) (hfs : fs p = some contents) :
    show_last_20_lines fs p = .ok (tailLines (readlines contents)) ∧
    ((readlines contents).take ((readlines contents).length - 20)).flatten ++
        (tailLines (readlines contents)).flatten = contents ∧
    (tailLines (readlines contents)).flatten <:+ contents ∧
    (contents = [] → show_last_20_lines fs p = .ok []) := by
  refine ⟨by simp [show_last_20_lines, hfs], ?_, ?_, fun hc => ?_⟩
  · rw [tailLines, ← List.flatten_append, List.take_append_drop, readlines_flatten]
  · refine ⟨((readlines contents).take ((readlines contents).length - 20)).flatten, ?_⟩
    rw [tailLines, ← List.flatten_append, List.take_append_drop, readlines_flatten]
  · subst hc
    simp [show_last_20_lines, hfs, tailLines, readlines]

/-- Witness for C10 at a concrete two-line file. -/
theorem show_last_20_lines_verbatim_witness :
    (fun q : String => if q = "notes.txt" then some "a\nb\n".data else none) "notes.txt"
        = some "a\nb\n".data ∧
    ((readlines "a\nb\n".data).take ((readlines "a\nb\n".data).length - 20)).flatten ++
        (tailLines (readlines "a\nb\n".data)).flatten = "a\nb\n".data :=
  ⟨by decide,
    (show_last_20_lines_verbatim
      (fun q : String => if q = "notes.txt" then some "a\nb\n".data else none)
      "notes.txt" "a\nb\n".data (by decide)).2.1⟩

/-! ### Theorems about the bot's `/data` handler -/

/-- C4: on the fixed five-value input, the derived "square", "sqrt" and "log"
columns of the `/data` reply match direct element-wise computation. -/
theorem data_columns_match :
    dataReply.numbers = [10, 20, 30, 40, 50] ∧
    ∀ i : ℕ,
      dataReply.square[i]? = (dataReply.numbers[i]?).map (fun n => n ^ 2) ∧
      dataReply.sqrt[i]? = (dataReply.numbers[i]?).map (fun n : ℚ => Real.sqrt (n : ℝ)) ∧
      dataReply.log[i]? = (dataReply.numbers[i]?).map (fun n : ℚ => Real.log (n : ℝ)) := by
  refine ⟨rfl, fun i => ⟨?_, ?_, ?_⟩⟩ <;>
    simp only [dataReply, squareCol, sqrtCol, logCol, List.getElem?_map]

/-- C8: none of the three command handlers reads or writes any threaded
program state: each returns the state unchanged, and its reply does not
depend on the state it is given; in particular two invocations of the
`/data` handler produce the same reply. -/
theorem handlers_stateless :
    ∀ (α : Type) (s t : α),
      (startHandler s).2 = s ∧ (dataHandler s).2 = s ∧
      (∀ args, (calcHandler args s).2 = s) ∧
      (startHandler s).1 = (startHandler t).1 ∧
      (dataHandler s).1 = (dataHandler t).1 ∧
      (∀ args, (calcHandler args s).1 = (calcHandler args t).1) :=
  fun _ _ _ => ⟨rfl, rfl, fun _ => rfl, rfl, rfl, fun _ => rfl⟩

/-- C7: every sin sample lies in [-1, 1] and every 2*cos sample lies in
[-2, 2], across all 200 sample points of the fixed domain. -/
theorem samples_bounded (i : ℕ) (_h : i < 200) :
    -1 ≤ ySample i ∧ ySample i ≤ 1 ∧ -2 ≤ zSample i ∧ zSample i ≤ 2 := by
  have h1 := Real.neg_one_le_cos (((xSample i : ℚ) : ℝ))
  have h2 := Real.cos_le_one (((xSample i : ℚ) : ℝ))
  refine ⟨Real.neg_one_le_sin _, Real.sin_le_one _, ?_, ?_⟩ <;>
    simp only [zSample] <;> linarith

/-- Witness for C7 at the first sample point. -/
theorem samples_bounded_witness :
    -1 ≤ ySample 0 ∧ ySample 0 ≤ 1 ∧ -2 ≤ zSample 0 ∧ zSample 0 ≤ 2 :=
  samples_bounded 0 (by norm_num)

/-- The index set of the 200 samples is nonempty. -/
theorem range200_nonempty : (Finset.range 200).Nonempty :=
  Finset.nonempty_range_iff.mpr (by norm_num)

/-- The first sample of the 2*cos curve has the exact value 2. -/
theorem zSample_zero : zSample 0 = 2 := by
  have hx : xSample 0 = 0 := by
    simp [xSample, linspace]
  rw [zSample, hx]
  norm_num [Real.cos_zero]

set_option maxRecDepth 8192 in
/-- C5 counterexample: no print record of the plotting script reports the
maximum of the computed 2*cos curve; the script prints the extrema of the
sin curve only, whose values are at most 1, while the maximum of the 2*cos
curve is at least its first sample, 2. -/
theorem plot_prints_missing_z : ¬ ∃ r ∈ plotPrints, r.value = zMax := by
  rintro ⟨r, hr, hval⟩
  have hz : (2 : ℝ) ≤ zMax := by
    rw [← zSample_zero]
    exact Finset.le_sup' zSample (by simp : (0 : ℕ) ∈ Finset.range 200)
  have hyMax : yMax ≤ 1 := Finset.sup'_le _ _ fun i _ => Real.sin_le_one _
  have hyMin : yMin ≤ 1 :=
    le_trans (Finset.inf'_le _ (by simp : (0 : ℕ) ∈ Finset.range 200)) (Real.sin_le_one _)
  have hv : r.value ≤ 1 := by
    have hr2 : r = ⟨"Max of sin(x):", yMax⟩ ∨ r = ⟨"Min of sin(x):", yMin⟩ := by
      simpa [plotPrints] using hr
    rcases hr2 with h | h <;> subst h
    · exact hyMax
    · exact hyMin
  rw [hval] at hv
  linarith

/-- C5 amended: the plotting script computes sin(x) and 2*cos(x) over the
fixed domain and prints the minimum and maximum of the computed sin(x) curve
(the extrema of the 2*cos(x) curve are computed but not printed). -/
theorem plot_prints_sin_extrema :
    plotPrints = [⟨"Max of sin(x):", yMax⟩, ⟨"Min of sin(x):", yMin⟩] ∧
    (∀ i : ℕ, i < 200 → yMin ≤ ySample i ∧ ySample i ≤ yMax) ∧
    (∃ i : ℕ, i < 200 ∧ ySample i = yMax) ∧
    (∃ j : ℕ, j < 200 ∧ ySample j = yMin) ∧
    (∀ i : ℕ, zSample i = Real.cos ((xSample i : ℚ) : ℝ) * 2) := by
  refine ⟨rfl, fun i hi => ⟨?_, ?_⟩, ?_, ?_, fun i => rfl⟩
  · exact Finset.inf'_le _ (Finset.mem_range.mpr hi)
  · exact Finset.le_sup' _ (Finset.mem_range.mpr hi)
  · obtain ⟨i, hi, heq⟩ := Finset.exists_mem_eq_sup' range200_nonempty ySample
    exact ⟨i, Finset.mem_range.mp hi, heq.symm⟩
  · obtain ⟨j, hj, heq⟩ := Finset.exists_mem_eq_inf' range200_nonempty ySample
    exact ⟨j, Finset.mem_range.mp hj, heq.symm⟩

/-- Witness for the amended C5 at the first sample point. -/
theorem plot_prints_sin_extrema_witness :
    plotPrints = [⟨"Max of sin(x):", yMax⟩, ⟨"Min of sin(x):", yMin⟩] ∧
    yMin ≤ ySample 0 ∧ ySample 0 ≤ yMax :=
  ⟨plot_prints_sin_extrema.1, plot_prints_sin_extrema.2.1 0 (by norm_num)⟩

/-! ### Theorems about the bot's `/calc` handler -/

/-- C1: whenever the body of the `/calc` handler raises an exception (a
non-numeric argument, a math domain error, or a missing argument), the reply
is the one generic usage message, and any usage-style reply carries exactly
that text: no other error reply is possible. -/
theorem calc_usage_on_raise :
    (∀ args, calcRaises args = true →
      calcReply args = .usage "Send like: /calc 25") ∧
    (∀ args msg, calcReply args = .usage msg → msg = "Send like: /calc 25") := by
  constructor
  · intro args h
    rw [calcRaises, Option.isNone_iff_eq_none] at h
    simp [calcReply, h]
  · intro args msg h
    cases ho : calcOutcome args with
    | none =>
      simp only [calcReply, ho] at h
      cases h
      rfl
    | some n =>
      simp only [calcReply, ho] at h
      cases h

/-- Witness for C1 at the non-numeric argument "abc". -/
theorem calc_usage_on_raise_witness :
    calcRaises ["abc"] = true ∧
    calcReply ["abc"] = .usage "Send like: /calc 25" :=
  ⟨by decide, calc_usage_on_raise.1 ["abc"] (by decide)⟩

/-- C9: the `/calc` handler reads only `args[0]`; when the first argument
parses as a number, any further arguments do not change the reply. -/
theorem calc_uses_first_arg (a : String) (rest : List String)
    (_h : (pyFloat a).isSome = true) :
    calcReply (a :: rest) = calcReply [a] := rfl

/-- Witness for C9 with a numeric first argument and one extra argument. -/
theorem calc_uses_first_arg_witness :
    (pyFloat "25").isSome = true ∧ calcReply ["25", "extra"] = calcReply ["25"] :=
  ⟨by decide, calc_uses_first_arg "25" ["extra"] (by decide)⟩

/-- Lower linear bound on the natural log, the mirror image of
`Real.log_le_sub_one_of_pos`. -/
theorem one_sub_inv_le_log {x : ℝ} (hx : 0 < x) : 1 - x⁻¹ ≤ Real.log x := by
  have h := Real.log_le_sub_one_of_pos (inv_pos.mpr hx)
  rw [Real.log_inv] at h
  linarith

/-- Rational window around `log 25`, from the Mathlib decimal bounds on
`log 2` and the linear bounds on `log (125/128)`. -/
theorem log_25_bounds : 3.2186 < Real.log (25 : ℝ) ∧ Real.log (25 : ℝ) < 3.2191 := by
  have h2l := Real.log_two_gt_d9
  have h2u := Real.log_two_lt_d9
  have hpos : (0 : ℝ) < 125 / 128 := by norm_num
  have hup : Real.log ((125 : ℝ) / 128) ≤ -(3 / 128) := by
    have h := Real.log_le_sub_one_of_pos hpos
    linarith
  have hlo : -(3 / 125) ≤ Real.log ((125 : ℝ) / 128) := by
    have h := one_sub_inv_le_log hpos
    norm_num at h
    linarith
  have h125 : Real.log (125 : ℝ) = 7 * Real.log 2 + Real.log ((125 : ℝ) / 128) := by
    rw [show (125 : ℝ) = 2 ^ 7 * (125 / 128) by norm_num,
      Real.log_mul (by positivity) (by norm_num), Real.log_pow]
    norm_num
  have h25 : Real.log (25 : ℝ) = 2 * Real.log (125 : ℝ) / 3 := by
    have ha : Real.log (125 : ℝ) = 3 * Real.log 5 := by
      rw [show (125 : ℝ) = 5 ^ 3 by norm_num, Real.log_pow]
      norm_num
    have hb : Real.log (25 : ℝ) = 2 * Real.log 5 := by
      rw [show (25 : ℝ) = 5 ^ 2 by norm_num, Real.log_pow]
      norm_num
    rw [ha, hb]
    ring
  rw [h25, h125]
  constructor <;> linarith

/-- C2: `/calc 25` replies with the number 25, square 625, square root 5,
and a natural log within 1/1000 of 3.2189. -/
theorem calc_25_reply :
    calcReply ["25"] = .result 25 625 5 (Real.log (25 : ℝ)) ∧
    |Real.log (25 : ℝ) - 3.2189| < 1 / 1000 := by
  constructor
  · have hp : pyFloatParse "25" = some (25, 0, 0) := by decide
    have ho : calcOutcome ["25"] = some 25 := by
      simp [calcOutcome, pyFloat, hp]
    have hc : ((25 : ℚ) : ℝ) = 25 := by norm_num
    simp only [calcReply, ho, hc]
    have hs : Real.sqrt (25 : ℝ) = 5 := by
      rw [show (25 : ℝ) = 5 ^ 2 by norm_num, Real.sqrt_sq (by norm_num : (0 : ℝ) ≤ 5)]
    rw [hs]
    norm_num
  · rw [abs_lt]
    constructor <;> linarith [log_25_bounds.1, log_25_bounds.2]
